import Mathlib

/-!
Verification development for the netapp_sim repository: a shallow embedding
of the protocol state machine (src/netapp_sim/protocol.py), the resource
ledger (src/netapp_sim/simulator.py) and the request/attempt model
(src/netapp_sim/model.py), together with theorems about the embedded code.

Conventions of the embedding:
* Python floats are modelled by rationals (only `+`, `-`, `<`, `>=` are used
  by the embedded code, never rounding-sensitive operations); the IEEE-754
  doubles of the wire codec are modelled by their 64-bit patterns.
* Python in-place mutation is explicit state passing; functions that can
  raise return the partially mutated state together with an `Option PyErr`.
* Python tuple unpacking is embedded by `unpack5` over a list (a tuple is a
  sequence in Python), so an arity mismatch becomes a `ValueError` exactly as
  at run time; unpacking or subscripting a `bool` raises `TypeError`.
* `time()` is a `Nat` supplied by the caller (timestamps are positive in any
  real run, so Python truthiness of a set timestamp is `t != 0`).
-/

/-! ## Protocol state constants (src/netapp_sim/consts.py) -/

def HREQ : Nat := 1
def HRES : Nat := 2
def RREQ : Nat := 3
def RRES : Nat := 4
def RCAN : Nat := 5
def DREQ : Nat := 6
def DRES : Nat := 7
def DACK : Nat := 8
def DCAN : Nat := 9
def DWAIT : Nat := 10
def FAIL : Nat := 0
def REQ_ID_LEN : Nat := 10

/-- Python exception kinds raised by the embedded code. -/
inductive PyErr
  | typeError
  | valueError
  | keyError
  | attributeError
deriving DecidableEq, Repr

/-- Python truthiness of an optional numeric timestamp: `None` and `0` are
falsy, any other number truthy (`not x` in the source). -/
def pyFalsy : Option Nat → Bool
  | none => true
  | some t => t == 0

/-! ## Reservation ledger (src/netapp_sim/simulator.py)

Host capacities and monitor measures, bundled. In simulation mode
(`SIMULATION_ACTIVE=True`) only the static capacities matter; in real mode
`get_resources` clips RAM/disk by the monitor's free measures. -/

structure SimEnv where
  CPU : Int
  RAM : ℚ
  DISK : ℚ
  simOn : Bool
  memory_free : ℚ
  disk_free : ℚ
deriving DecidableEq, Repr

/-- Class of Service: identity plus the three requirement bounds the embedded
code reads (`get_min_cpu`, `get_min_ram`, `get_min_disk`); the remaining
CoSSpecs bounds of model.py are never read by the protocol or the ledger. -/
structure CoS where
  id : Nat
  name : String
  min_cpu : Int
  min_ram : ℚ
  min_disk : ℚ
deriving DecidableEq, Repr

/-- The `_reserved` counters. -/
structure Reserved where
  cpu : Int
  ram : ℚ
  disk : ℚ
deriving DecidableEq, Repr

def Reserved.zero : Reserved := ⟨0, 0, 0⟩

/-- simulator.get_resources: `capacity - reserved`, with RAM/disk clipped by
the monitor's free measures outside simulation mode.  Returns the 3-tuple
`(cpu, ram, disk)` (simulator.py line 174). -/
def get_resources (e : SimEnv) (st : Reserved) : Int × ℚ × ℚ :=
  let cpu := e.CPU - st.cpu
  let _ram := if ¬e.simOn ∧ e.memory_free < e.RAM then e.memory_free else e.RAM
  let ram := _ram - st.ram
  let _disk := if ¬e.simOn ∧ e.disk_free < e.DISK then e.disk_free else e.DISK
  let disk := _disk - st.disk
  (cpu, ram, disk)

/-- The same 3-tuple viewed as the Python sequence it is (for unpacking). -/
def get_resources_seq (e : SimEnv) (st : Reserved) : List ℚ :=
  [((get_resources e st).1 : ℚ), (get_resources e st).2.1, (get_resources e st).2.2]

/-- Python unpacking `a, b, c, d, e = seq`: raises ValueError unless the
sequence has exactly five elements. -/
def unpack5 (l : List ℚ) : Except PyErr (ℚ × ℚ × ℚ × ℚ × ℚ) :=
  match l with
  | [a, b, c, d, e] => .ok (a, b, c, d, e)
  | _ => .error .valueError

/-- simulator.check_resources: one boolean, computed from the current
snapshot and the request's minimum requirements (simulator.py lines 177-191;
in the source the requirements are read through `req.get_min_*()`). -/
def check_resources (e : SimEnv) (m : CoS) (st : Reserved) : Bool :=
  let (cpu, ram, disk) := get_resources e st
  decide (cpu ≥ m.min_cpu) && decide (ram ≥ m.min_ram) && decide (disk ≥ m.min_disk)

/-- simulator.reserve_resources (lines 194-216).  Line 208 unpacks the
3-tuple returned by `get_resources` into five targets
(`cpu, ram, disk, _, _ = get_resources(quiet=True)`), so the call raises
ValueError before the comparison; the comparison and the counter increments
below it are transcribed but unreachable. -/
def reserve_resources (e : SimEnv) (m : CoS) (st : Reserved) :
    Except PyErr (Bool × Reserved) := do
  let (cpu, ram, disk, _x, _y) ← unpack5 (get_resources_seq e st)
  if (m.min_cpu : ℚ) ≤ cpu ∧ m.min_ram ≤ ram ∧ m.min_disk ≤ disk then
    return (true, ⟨st.cpu + m.min_cpu, st.ram + m.min_ram, st.disk + m.min_disk⟩)
  else
    return (false, st)

/-- simulator.free_resources (lines 219-238): subtract each requirement and
clamp the counter at zero; always returns True. -/
def free_resources (m : CoS) (st : Reserved) : Bool × Reserved :=
  let c := st.cpu - m.min_cpu
  let c := if c < 0 then 0 else c
  let r := st.ram - m.min_ram
  let r := if r < 0 then 0 else r
  let d := st.disk - m.min_disk
  let d := if d < 0 then 0 else d
  (true, ⟨c, r, d⟩)

/-! ## Wire codec (protocol.py, MyProtocol.fields_desc lines 141-157)

One packet per protocol state, carrying exactly the semantic fields the
conditional-field table assigns to that state.  `req_id` is an opaque
10-octet string (a list of bytes); integers are network-endian u32; the two
IEEE-754 binary64 offers are modelled by their 64-bit patterns, which is what
the codec reads and writes. -/

inductive ProtoPkt
  | hreq (req_id : List Nat) (attempt_no cos_id : Nat)
  | hres (req_id : List Nat) (attempt_no cpu_offer ram_offer disk_offer : Nat)
  | rreq (req_id : List Nat)
  | rres (req_id : List Nat)
  | rcan (req_id : List Nat)
  | dreq (req_id : List Nat) (attempt_no : Nat) (data : List Nat)
  | dres (req_id : List Nat) (attempt_no : Nat) (data : List Nat)
  | dack (req_id : List Nat)
  | dcan (req_id : List Nat)
  | dwait (req_id : List Nat)
deriving DecidableEq, Repr

/-- Big-endian 4-byte encoding of an IntField value. -/
def u32be (n : Nat) : List Nat :=
  [n / 2 ^ 24 % 256, n / 2 ^ 16 % 256, n / 2 ^ 8 % 256, n % 256]

/-- Big-endian 4-byte decoding. -/
def de32 : List Nat → Nat
  | [a, b, c, d] => a * 2 ^ 24 + b * 2 ^ 16 + c * 2 ^ 8 + d
  | _ => 0

/-- Big-endian 8-byte encoding of an IEEEDoubleField bit pattern. -/
def u64be (n : Nat) : List Nat := u32be (n / 2 ^ 32) ++ u32be (n % 2 ^ 32)

/-- Big-endian 8-byte decoding. -/
def de64 (l : List Nat) : Nat := de32 (l.take 4) * 2 ^ 32 + de32 (l.drop 4)

/-- Build a packet's payload bytes in fields_desc order: `state` (1 byte),
`req_id` (10 bytes), then the conditional fields present for that state —
`attempt_no` for HREQ/HRES/DREQ/DRES, `cos_id` for HREQ, `data` (rest of the
payload) for DREQ/DRES, and the three offers for HRES. -/
def serializeP : ProtoPkt → List Nat
  | .hreq rid a c => HREQ :: rid ++ u32be a ++ u32be c
  | .hres rid a cpu ram disk =>
      HRES :: rid ++ u32be a ++ u32be cpu ++ u64be ram ++ u64be disk
  | .rreq rid => RREQ :: rid
  | .rres rid => RRES :: rid
  | .rcan rid => RCAN :: rid
  | .dreq rid a d => DREQ :: rid ++ u32be a ++ d
  | .dres rid a d => DRES :: rid ++ u32be a ++ d
  | .dack rid => DACK :: rid
  | .dcan rid => DCAN :: rid
  | .dwait rid => DWAIT :: rid

/-- Dissect a payload back into a packet: read the state byte, the 10-byte
`req_id`, then the conditional fields of that state.  `data` takes the whole
remaining payload (StrField).  Payloads whose length does not match the
fixed-size fields of their state are rejected. -/
def dissectP : List Nat → Option ProtoPkt
  | [] => none
  | st :: rest =>
    if rest.length < REQ_ID_LEN then none else
    let rid := rest.take REQ_ID_LEN
    let r2 := rest.drop REQ_ID_LEN
    if st = HREQ then
      if r2.length = 8 then some (.hreq rid (de32 (r2.take 4)) (de32 (r2.drop 4))) else none
    else if st = HRES then
      if r2.length = 24 then
        some (.hres rid (de32 (r2.take 4)) (de32 ((r2.drop 4).take 4))
          (de64 ((r2.drop 8).take 8)) (de64 (r2.drop 16)))
      else none
    else if st = RREQ then if r2 = [] then some (.rreq rid) else none
    else if st = RRES then if r2 = [] then some (.rres rid) else none
    else if st = RCAN then if r2 = [] then some (.rcan rid) else none
    else if st = DREQ then
      if 4 ≤ r2.length then some (.dreq rid (de32 (r2.take 4)) (r2.drop 4)) else none
    else if st = DRES then
      if 4 ≤ r2.length then some (.dres rid (de32 (r2.take 4)) (r2.drop 4)) else none
    else if st = DACK then if r2 = [] then some (.dack rid) else none
    else if st = DCAN then if r2 = [] then some (.dcan rid) else none
    else if st = DWAIT then if r2 = [] then some (.dwait rid) else none
    else none

/-- Well-formed field values: the `req_id` has its fixed 10-octet length and
each numeric field fits its wire width. -/
def WFPkt : ProtoPkt → Prop
  | .hreq rid a c => rid.length = REQ_ID_LEN ∧ a < 2 ^ 32 ∧ c < 2 ^ 32
  | .hres rid a cpu ram disk =>
      rid.length = REQ_ID_LEN ∧ a < 2 ^ 32 ∧ cpu < 2 ^ 32 ∧ ram < 2 ^ 64 ∧ disk < 2 ^ 64
  | .dreq rid a _ => rid.length = REQ_ID_LEN ∧ a < 2 ^ 32
  | .dres rid a _ => rid.length = REQ_ID_LEN ∧ a < 2 ^ 32
  | .rreq rid => rid.length = REQ_ID_LEN
  | .rres rid => rid.length = REQ_ID_LEN
  | .rcan rid => rid.length = REQ_ID_LEN
  | .dack rid => rid.length = REQ_ID_LEN
  | .dcan rid => rid.length = REQ_ID_LEN
  | .dwait rid => rid.length = REQ_ID_LEN

theorem de32_u32be (n : Nat) (h : n < 2 ^ 32) : de32 (u32be n) = n := by
  simp only [u32be, de32]
  omega

theorem de64_u64be (n : Nat) (h : n < 2 ^ 64) : de64 (u64be n) = n := by
  have h1 : n / 2 ^ 32 < 2 ^ 32 := by omega
  have h2 : n % 2 ^ 32 < 2 ^ 32 := by omega
  have hl : (u32be (n / 2 ^ 32)).length = 4 := by simp [u32be]
  simp only [u64be, de64]
  rw [List.take_left' hl, List.drop_left' hl, de32_u32be _ h1, de32_u32be _ h2]
  omega

theorem take_append_of_len {α : Type} (l x : List α) (n : Nat) (h : l.length = n) :
    (l ++ x).take n = l := by
  subst h; exact List.take_left l x

theorem drop_append_of_len {α : Type} (l x : List α) (n : Nat) (h : l.length = n) :
    (l ++ x).drop n = x := by
  subst h; exact List.drop_left l x

/-- C9: for every protocol state and every well-formed value of that state's
semantic field tuple, building a packet from the tuple, serialising it to
bytes, and dissecting those bytes yields the identical field tuple. -/
theorem C9_codec_round_trip (p : ProtoPkt) (h : WFPkt p) :
    dissectP (serializeP p) = some p := by
  have h4 : ∀ n : Nat, (u32be n).length = 4 := fun n => by simp [u32be]
  have h8 : ∀ n : Nat, (u64be n).length = 8 := fun n => by simp [u64be, u32be]
  cases p with
  | hreq rid a c =>
    obtain ⟨hl, ha, hc⟩ := h
    rw [REQ_ID_LEN] at hl
    simp only [serializeP, List.cons_append, List.append_assoc, dissectP, REQ_ID_LEN,
      take_append_of_len rid _ 10 hl, drop_append_of_len rid _ 10 hl,
      take_append_of_len (u32be a) _ 4 (h4 a), drop_append_of_len (u32be a) _ 4 (h4 a),
      List.length_append, hl, h4, de32_u32be a ha, de32_u32be c hc,
      HREQ, HRES, RREQ, RRES, RCAN, DREQ, DRES, DACK, DCAN, DWAIT]
    norm_num
  | hres rid a cpu ram disk =>
    obtain ⟨hl, ha, hcpu, hram, hdisk⟩ := h
    rw [REQ_ID_LEN] at hl
    have e4 : (u32be a ++ (u32be cpu ++ (u64be ram ++ u64be disk))).drop 8
        = u64be ram ++ u64be disk := by
      rw [show (8 : Nat) = 4 + 4 from rfl, ← List.drop_drop,
        drop_append_of_len (u32be a) _ 4 (h4 a),
        drop_append_of_len (u32be cpu) _ 4 (h4 cpu)]
    have e5 : (u32be a ++ (u32be cpu ++ (u64be ram ++ u64be disk))).drop 16
        = u64be disk := by
      rw [show (16 : Nat) = 8 + 8 from rfl, ← List.drop_drop, e4,
        drop_append_of_len (u64be ram) _ 8 (h8 ram)]
    simp only [serializeP, List.cons_append, List.append_assoc, dissectP, REQ_ID_LEN,
      take_append_of_len rid _ 10 hl, drop_append_of_len rid _ 10 hl,
      take_append_of_len (u32be a) _ 4 (h4 a), drop_append_of_len (u32be a) _ 4 (h4 a),
      take_append_of_len (u32be cpu) _ 4 (h4 cpu), e4, e5,
      take_append_of_len (u64be ram) _ 8 (h8 ram),
      List.length_append, hl, h4, h8,
      de32_u32be a ha, de32_u32be cpu hcpu, de64_u64be ram hram, de64_u64be disk hdisk,
      HREQ, HRES, RREQ, RRES, RCAN, DREQ, DRES, DACK, DCAN, DWAIT]
    norm_num
  | dreq rid a d =>
    obtain ⟨hl, ha⟩ := h
    rw [REQ_ID_LEN] at hl
    simp only [serializeP, List.cons_append, List.append_assoc, dissectP, REQ_ID_LEN,
      take_append_of_len rid _ 10 hl, drop_append_of_len rid _ 10 hl,
      take_append_of_len (u32be a) _ 4 (h4 a), drop_append_of_len (u32be a) _ 4 (h4 a),
      List.length_append, hl, h4, de32_u32be a ha,
      HREQ, HRES, RREQ, RRES, RCAN, DREQ, DRES, DACK, DCAN, DWAIT]
    norm_num
  | dres rid a d =>
    obtain ⟨hl, ha⟩ := h
    rw [REQ_ID_LEN] at hl
    simp only [serializeP, List.cons_append, List.append_assoc, dissectP, REQ_ID_LEN,
      take_append_of_len rid _ 10 hl, drop_append_of_len rid _ 10 hl,
      take_append_of_len (u32be a) _ 4 (h4 a), drop_append_of_len (u32be a) _ 4 (h4 a),
      List.length_append, hl, h4, de32_u32be a ha,
      HREQ, HRES, RREQ, RRES, RCAN, DREQ, DRES, DACK, DCAN, DWAIT]
    norm_num
  | rreq rid =>
    rw [WFPkt, REQ_ID_LEN] at h
    simp only [serializeP, dissectP, REQ_ID_LEN, h,
      List.take_of_length_le (le_of_eq h), List.drop_of_length_le (le_of_eq h),
      HREQ, HRES, RREQ, RRES, RCAN, DREQ, DRES, DACK, DCAN, DWAIT]
    norm_num
  | rres rid =>
    rw [WFPkt, REQ_ID_LEN] at h
    simp only [serializeP, dissectP, REQ_ID_LEN, h,
      List.take_of_length_le (le_of_eq h), List.drop_of_length_le (le_of_eq h),
      HREQ, HRES, RREQ, RRES, RCAN, DREQ, DRES, DACK, DCAN, DWAIT]
    norm_num
  | rcan rid =>
    rw [WFPkt, REQ_ID_LEN] at h
    simp only [serializeP, dissectP, REQ_ID_LEN, h,
      List.take_of_length_le (le_of_eq h), List.drop_of_length_le (le_of_eq h),
      HREQ, HRES, RREQ, RRES, RCAN, DREQ, DRES, DACK, DCAN, DWAIT]
    norm_num
  | dack rid =>
    rw [WFPkt, REQ_ID_LEN] at h
    simp only [serializeP, dissectP, REQ_ID_LEN, h,
      List.take_of_length_le (le_of_eq h), List.drop_of_length_le (le_of_eq h),
      HREQ, HRES, RREQ, RRES, RCAN, DREQ, DRES, DACK, DCAN, DWAIT]
    norm_num
  | dcan rid =>
    rw [WFPkt, REQ_ID_LEN] at h
    simp only [serializeP, dissectP, REQ_ID_LEN, h,
      List.take_of_length_le (le_of_eq h), List.drop_of_length_le (le_of_eq h),
      HREQ, HRES, RREQ, RRES, RCAN, DREQ, DRES, DACK, DCAN, DWAIT]
    norm_num
  | dwait rid =>
    rw [WFPkt, REQ_ID_LEN] at h
    simp only [serializeP, dissectP, REQ_ID_LEN, h,
      List.take_of_length_le (le_of_eq h), List.drop_of_length_le (le_of_eq h),
      HREQ, HRES, RREQ, RRES, RCAN, DREQ, DRES, DACK, DCAN, DWAIT]
    norm_num

/-- Witness for C9: a concrete HRES packet round-trips to the identical
field tuple. -/
theorem C9_codec_round_trip_witness :
    dissectP (serializeP (.hres [65, 66, 67, 68, 69, 70, 71, 72, 73, 74] 1 4 4096 40))
      = some (.hres [65, 66, 67, 68, 69, 70, 71, 72, 73, 74] 1 4 4096 40) :=
  C9_codec_round_trip _ (by refine ⟨?_, ?_, ?_, ?_, ?_⟩ <;> norm_num [REQ_ID_LEN])

/-! ## Registry model (protocol.py globals and model.py classes)

Association lists model Python dicts: `aset` is `d[k] = v` (replace or
append), `aupd` mutates the object stored at a key in place, `alookup` is
`d[k]` / `k in d`. -/

def alookup {α β : Type} [DecidableEq α] : List (α × β) → α → Option β
  | [], _ => none
  | (a, b) :: t, key => if a = key then some b else alookup t key

def aset {α β : Type} [DecidableEq α] : List (α × β) → α → β → List (α × β)
  | [], key, v => [(key, v)]
  | (a, b) :: t, key, v => if a = key then (key, v) :: t else (a, b) :: aset t key v

def aupd {α β : Type} [DecidableEq α] : List (α × β) → α → (β → β) → List (α × β)
  | [], _, _ => []
  | (a, b) :: t, key, f => if a = key then (a, f b) :: t else (a, b) :: aupd t key f

/-- model.Attempt: one pass through the HREQ-RREQ-DREQ chain. -/
structure Attempt where
  req_id : String
  attempt_no : Nat
  host : Option String
  state : Option Nat
  hreq_at : Option Nat
  hres_at : Option Nat
  rres_at : Option Nat
  dres_at : Option Nat
deriving DecidableEq, Repr

/-- model.Request, the consumer-side request object (`_attempt_no` and
`_late` are the private counters of the source). -/
structure CRequest where
  id : String
  cos : CoS
  data : String
  result : Option String
  host : Option String
  state : Option Nat
  hreq_at : Option Nat
  dres_at : Option Nat
  attempts : List (Nat × Attempt)
  attempt_no : Nat
  late : Bool
deriving DecidableEq, Repr

/-- protocol._Request, the provider-side entry: `Request.__init__(id, None,
None)` plus `_thread = None` and `_freed = True`; only the fields the
provider code reads are carried (`cos`, `result`, `state`, `_thread`,
`_freed`). -/
structure PReq where
  id : String
  cos : Option CoS
  result : Option String
  state : Option Nat
  thread : Bool
  freed : Bool
deriving DecidableEq, Repr

/-- A fresh provider entry as created on first HREQ (protocol.py lines
239-240: construct, then set state to HREQ). -/
def newPReq (id : String) : PReq :=
  { id := id
    cos := none
    result := none
    state := some HREQ
    thread := false
    freed := true }

/-- model.Response: the consumer's observation of one HRES. -/
structure Response where
  req_id : String
  attempt_no : Nat
  host : String
  cpu : Int
  ram : ℚ
  disk : ℚ
  timestamp : Nat
deriving DecidableEq, Repr

/-- A runtime packet as the answering machine sees it: all MyProtocol fields
(absent conditional fields keep their scapy defaults). -/
structure Pkt where
  state : Nat
  req_id : String
  attempt_no : Nat
  cos_id : Nat
  data : String
  cpu_offer : Int
  ram_offer : ℚ
  disk_offer : ℚ
deriving DecidableEq, Repr

/-- The node's mutable globals: `requests` (consumer registry; a key mapped
to `none` is one of the placeholder entries pre-seeded from the database,
protocol.py lines 66-69), `_requests` (provider registry keyed by
`(peer_address, req_id)`), `_responses` (observation log) and the ledger
counters. -/
structure GState where
  requests : List (String × Option CRequest)
  preqs : List ((String × String) × PReq)
  responses : List (String × List Response)
  reserved : Reserved
deriving DecidableEq, Repr

/-- Background task kinds `make_reply` may start. -/
inductive SpawnK
  | respondResources
  | respondData
deriving DecidableEq, Repr

/-- Result of one `make_reply` dispatch: the (possibly partially mutated)
globals, the optional reply packet, the exception if one was raised on the
way, and the optional background task started. -/
structure AMResult where
  g : GState
  reply : Option Pkt
  err : Option PyErr
  spawn : Option SpawnK
deriving DecidableEq, Repr

def amNoop (g : GState) : AMResult := ⟨g, none, none, none⟩
def amErr (g : GState) (er : PyErr) : AMResult := ⟨g, none, some er, none⟩
def amReply (g : GState) (p : Pkt) : AMResult := ⟨g, some p, none, none⟩

/-- Python `check, cpu, ram, disk = <bool>` (protocol.py line 250): a bool
is not iterable, so the statement raises TypeError. -/
def unpack_bool4 (_ : Bool) : Except PyErr (Bool × Int × ℚ × ℚ) :=
  .error .typeError

/-- Python `<bool>[0]` (protocol.py line 332): a bool is not subscriptable,
so the expression raises TypeError. -/
def subscript_bool (_ : Bool) (_ : Nat) : Except PyErr Bool :=
  .error .typeError

/-- `_responses.setdefault(req_id, []); _responses[req_id].append(resp)`. -/
def append_response (l : List (String × List Response)) (id : String)
    (resp : Response) : List (String × List Response) :=
  match alookup l id with
  | none => aset l id [resp]
  | some xs => aset l id (xs ++ [resp])

/-- Response construction at reception time (model.py lines 486-497: the
timestamp defaults to `time()`). -/
def mkResponse (id : String) (no : Nat) (host : String) (cpu : Int)
    (ram disk : ℚ) (now : Nat) : Response :=
  { req_id := id
    attempt_no := no
    host := host
    cpu := cpu
    ram := ram
    disk := disk
    timestamp := now }

/-- Tail of the RREQ branch (protocol.py lines 297-301): after the optional
reservation, an entry now in RRES gets a reservation-responder task. -/
def afterRREQ (g : GState) (key : String × String) : AMResult :=
  match alookup g.preqs key with
  | some r => if r.state = some RRES then ⟨g, none, none, some .respondResources⟩
              else amNoop g
  | none => amNoop g

/-- Tail of the DREQ branch (protocol.py lines 344-350): an entry in RRES
gets an execution-responder task, remembered in `_thread`. -/
def afterDREQ (g : GState) (key : String × String) : AMResult :=
  match alookup g.preqs key with
  | some r =>
      if r.state = some RRES then
        ⟨{g with preqs := aupd g.preqs key (fun q => {q with thread := true})},
          none, none, some .respondData⟩
      else amNoop g
  | none => amNoop g

/-- MyProtocolAM.make_reply (protocol.py lines 228-395): dispatch one
admitted packet from `src`; `cd` is the module-level `cos_dict`, `now` the
value of `time()` during this dispatch. -/
def make_reply (e : SimEnv) (cd : List (Nat × CoS)) (g : GState) (now : Nat)
    (src : String) (p : Pkt) : AMResult :=
  let key := (src, p.req_id)
  -- provider receives host request
  if p.state = HREQ then
    let g1 := if alookup g.preqs key = none
      then {g with preqs := aset g.preqs key (newPReq p.req_id)} else g
    match alookup g1.preqs key with
    | none => amErr g1 .keyError  -- unreachable: the entry was just inserted
    | some r =>
      -- if not old request that was cancelled
      if r.state = some HREQ ∨ r.state = some HRES then
        -- set cos: cos_dict[my_proto.cos_id]
        match alookup cd p.cos_id with
        | none => amErr g1 .keyError
        | some cos =>
          let g2 := {g1 with preqs := aupd g1.preqs key (fun q => {q with cos := some cos})}
          -- line 250: `check, cpu, ram, disk = check_resources(...)` but
          -- check_resources returns one bool, so this raises TypeError
          match unpack_bool4 (check_resources e cos g2.reserved) with
          | .error er => amErr g2 er
          | .ok (check, cpu, ram, disk) =>
            if check then
              let g3 := {g2 with preqs := aupd g2.preqs key (fun q => {q with state := some HRES})}
              amReply g3 {p with
                state := HRES
                cpu_offer := cpu
                ram_offer := ram
                disk_offer := disk}
            else
              let g3 := {g2 with preqs := aupd g2.preqs key (fun q => {q with state := some HREQ})}
              amNoop g3
      else amNoop g1
  -- consumer receives host responses (save in the observation log); when the
  -- compound condition fails the packet falls through, and no later branch
  -- matches an HRES, so the dispatch returns nothing
  else if p.state = HRES then
    match alookup g.requests p.req_id with
    | none => amNoop g
    | some none => amErr g .attributeError  -- placeholder entry: None.state
    | some (some r) =>
      if r.state ≠ some DRES ∧ r.state ≠ some FAIL then
        let resp := mkResponse p.req_id p.attempt_no src p.cpu_offer
          p.ram_offer p.disk_offer now
        ⟨{g with responses := append_response g.responses p.req_id resp},
          none, none, none⟩
      else amNoop g
  -- provider receives resource reservation request
  else if p.state = RREQ then
    match alookup g.preqs key with
    | none => amNoop g
    | some r =>
      if r.state = some HRES then
        match r.cos with
        | none => amErr g .attributeError  -- req.get_min_cpu() with cos None
        | some m =>
          match reserve_resources e m g.reserved with
          | .error er => amErr g er
          | .ok (ok, res) =>
            if ok then
              let g2 := {g with
                reserved := res
                preqs := aupd g.preqs key (fun q => {q with state := some RRES, freed := false})}
              afterRREQ g2 key
            else
              let g2 := {g with
                reserved := res
                preqs := aupd g.preqs key (fun q => {q with state := some HREQ})}
              amReply g2 {p with state := RCAN}
      else afterRREQ g key
  -- consumer receives late resource reservation response
  else if p.state = RRES then
    match alookup g.requests p.req_id with
    | none => amNoop g
    | some none => amErr g .attributeError  -- reads requests[req_id].host
    | some (some r) =>
      if r.host ≠ some src then amReply g {p with state := RCAN}
      else amNoop g
  -- provider receives data exchange request
  else if p.state = DREQ then
    match alookup g.preqs key with
    | none => amNoop g
    | some r =>
      -- already executed: resend the cached DRES
      if r.state = some DRES then
        amReply g {p with state := DRES, data := r.result.getD ""}
      -- still executing
      else if r.state = some RRES ∧ r.thread then
        amReply g {p with state := DWAIT}
      -- if request was cancelled before
      else if r.state = some HREQ then
        match r.cos with
        | none => amErr g .attributeError  -- check_resources reads the mins
        | some m =>
          -- line 332: `check_resources(...)[0]` subscripts a bool: TypeError
          match subscript_bool (check_resources e m g.reserved) 0 with
          | .error er => amErr g er
          | .ok b =>
            if b then
              match reserve_resources e m g.reserved with
              | .error er => amErr g er
              | .ok (_, res) =>
                let g2 := {g with
                  reserved := res
                  preqs := aupd g.preqs key (fun q => {q with state := some RRES, freed := false})}
                afterDREQ g2 key
            else
              let g2 := {g with preqs := aupd g.preqs key (fun q => {q with state := some HREQ})}
              amReply g2 {p with state := DCAN}
      else afterDREQ g key
  -- consumer receives late data exchange response
  else if p.state = DRES then
    match alookup g.requests p.req_id with
    | none => amNoop g
    | some none => amErr g .attributeError  -- reads requests[req_id].dres_at
    | some (some r) =>
      -- if no other response was already accepted
      if pyFalsy r.dres_at then
        -- if response from previous host while marked late, accept
        if r.host ≠ some src ∧ r.late then
          -- lines 358-361 in source order, then the attempt update
          let r1 := {r with
            dres_at := some now
            state := some DRES
            host := some src
            result := some p.data}
          match alookup r1.attempts p.attempt_no with
          | none =>  -- attempts[my_proto.attempt_no] raises after the four writes
            amErr {g with requests := aset g.requests p.req_id (some r1)} .keyError
          | some _ =>
            let upd := fun (a : Attempt) => {a with state := some DRES, dres_at := some now}
            let r2 := {r1 with attempts := aupd r1.attempts p.attempt_no upd}
            amReply {g with requests := aset g.requests p.req_id (some r2)}
              {p with state := DACK}
        else amNoop g
      -- if a response was already received
      else
        if r.host ≠ some src then amReply g {p with state := DCAN}
        else amReply g {p with state := DACK}
  -- provider receives data exchange acknowledgement
  else if p.state = DACK then
    match alookup g.preqs key with
    | none => amNoop g
    | some r =>
      if r.state = some DRES then
        -- only free resources if still reserved
        if ¬r.freed then
          match r.cos with
          | none => amErr g .attributeError  -- free_resources reads the mins
          | some m =>
            let g2 := {g with
              reserved := (free_resources m g.reserved).2
              preqs := aupd g.preqs key (fun q => {q with freed := true})}
            ⟨g2, none, none, none⟩
        else amNoop g
      else amNoop g
  else amNoop g

/-! ## Environment oracle for send-and-wait primitives

Each scapy wait (`srp1`, `sr1`, a bounded `sniff`) consumes one slot of an
environment list: `none` is a timeout, `some q` the packet the wait yielded.
`recvAnswer` keeps sr1/srp1's answer matching (MyProtocol.answers, lines
167-190): a slot carrying a packet whose state cannot answer the sent one
behaves as a timeout; `sniffFrom` applies the consumer's explicit lfilter
(source host and expected states). -/

structure RPkt where
  src : String
  st : Nat
  data : String
deriving DecidableEq, Repr

def recvAnswer (expect : List Nat) (slot : Option RPkt) : Option RPkt :=
  match slot with
  | some q => if q.st ∈ expect then some q else none
  | none => none

def sniffFrom (host : String) (states : List Nat) (slot : Option RPkt) :
    Option RPkt :=
  match slot with
  | some q => if q.src = host ∧ q.st ∈ states then some q else none
  | none => none

/-! ## Provider responder tasks (protocol.py lines 397-454) -/

/-- How a reservation-responder run ended. -/
inductive RRExit
  | viaRcan       -- consumer cancelled during the RRES retries
  | gotDreq       -- a DREQ answered some RRES: the loop just stops
  | viaTimeout    -- retry budget exhausted with no DREQ: free, revert, RCAN
  | stateChanged  -- the entry left RRES, the loop stops with nothing to do
deriving DecidableEq, Repr

structure RRResult where
  r : PReq
  reserved : Reserved
  env : List (Option RPkt)
  sentRcan : Bool
  exit : RRExit
  err : Option PyErr
deriving DecidableEq, Repr

/-- After the retry loop of `_respond_resources` (lines 414-421): no DREQ
received; if the entry is still in RRES, free the reservation, revert to
HREQ and send RCAN.  Neither path touches `_freed`. -/
def respond_resources_after (r : PReq) (res : Reserved)
    (env : List (Option RPkt)) : RRResult :=
  if r.state = some RRES then
    match r.cos with
    | none => ⟨r, res, env, false, .viaTimeout, some .attributeError⟩
    | some m =>
        ⟨{r with state := some HREQ}, (free_resources m res).2, env, true,
          .viaTimeout, none⟩
  else ⟨r, res, env, false, .stateChanged, none⟩

/-- MyProtocolAM._respond_resources (lines 397-421): send RRES and await the
DREQ, up to `retries` attempts; an RCAN from the consumer frees the
reservation and reverts the entry to HREQ (without touching `_freed`). -/
def respond_resources : Nat → List (Option RPkt) → PReq → Reserved → RRResult
  | 0, env, r, res => respond_resources_after r res env
  | retries + 1, env, r, res =>
    if r.state ≠ some RRES then respond_resources_after r res env
    else
      match env with
      | [] => respond_resources retries [] r res
      | slot :: env1 =>
        match recvAnswer [DREQ, RCAN] slot with
        | none => respond_resources retries env1 r res
        | some q =>
          if q.st = RCAN then
            -- lines 410-413: state := HREQ, then free, then return
            match r.cos with
            | none => ⟨{r with state := some HREQ}, res, env1, false, .viaRcan,
                some .attributeError⟩
            | some m => ⟨{r with state := some HREQ}, (free_resources m res).2,
                env1, false, .viaRcan, none⟩
          else ⟨r, res, env1, false, .gotDreq, none⟩

/-- How an execution-responder run ended. -/
inductive RDExit
  | viaDcan      -- DCAN while still reserved: free and mark freed
  | dcanFreed    -- DCAN but already freed: the loop just stops
  | gotDack      -- DACK received: done, freeing is make_reply's branch
  | viaTimeout   -- budget exhausted: free if still reserved, mark freed
deriving DecidableEq, Repr

structure RDResult where
  r : PReq
  reserved : Reserved
  env : List (Option RPkt)
  exit : RDExit
  err : Option PyErr
deriving DecidableEq, Repr

/-- The retry loop of `_respond_data` (lines 432-453), after the result has
been cached and the entry moved to DRES. -/
def respond_data_loop : Nat → List (Option RPkt) → PReq → Reserved → RDResult
  | 0, env, r, res =>
    -- lines 447-453: no DACK; only free resources if still reserved
    if ¬r.freed then
      match r.cos with
      | none => ⟨r, res, env, .viaTimeout, some .attributeError⟩
      | some m => ⟨{r with freed := true}, (free_resources m res).2, env,
          .viaTimeout, none⟩
    else ⟨r, res, env, .viaTimeout, none⟩
  | retries + 1, env, r, res =>
    match env with
    | [] => respond_data_loop retries [] r res
    | slot :: env1 =>
      match recvAnswer [DACK, DCAN] slot with
      | none => respond_data_loop retries env1 r res
      | some q =>
        if q.st = DCAN then
          -- lines 439-446: only free resources if still reserved
          if ¬r.freed then
            match r.cos with
            | none => ⟨r, res, env1, .viaDcan, some .attributeError⟩
            | some m => ⟨{r with freed := true}, (free_resources m res).2,
                env1, .viaDcan, none⟩
          else ⟨r, res, env1, .dcanFreed, none⟩
        else ⟨r, res, env1, .gotDack, none⟩

/-- MyProtocolAM._respond_data (lines 423-454): execute (the stub always
returns the bytes "result"), cache the result, move the entry to DRES, then
send DRES and await the DACK. -/
def respond_data (retries : Nat) (env : List (Option RPkt)) (r : PReq)
    (res : Reserved) : RDResult :=
  respond_data_loop retries env {r with result := some "result", state := some DRES} res

/-! ## Consumer FSM (protocol.py send_request, lines 468-635)

The nested retry loops are transcribed as mutually recursive phase
functions; a Python `continue` that re-enters an outer loop becomes a tail
call to that loop's function.  `pr` is PROTO_RETRIES; the clock supplies
`time()` values (one tick per call, starting at 1 so timestamps are always
truthy). -/

structure ConsSt where
  req : CRequest
  clock : Nat
deriving DecidableEq, Repr

/-- Update the attempt object currently held by the loop (the one whose
number is the request's `_attempt_no`). -/
def updAtt (c : ConsSt) (f : Attempt → Attempt) : ConsSt :=
  ⟨{c.req with attempts := aupd c.req.attempts c.req.attempt_no f}, c.clock⟩

/-- `req._late = True` (line 622). -/
def markLate (c : ConsSt) : ConsSt := ⟨{c.req with late := true}, c.clock⟩

/-- Lines 600-605: the guarded once-only acceptance of a DRES payload — the
writer reads `dres_at` and assigns `dres_at`, `state`, `result` and the
current attempt's `dres_at`/`state` only when it was unset. -/
def consumer_accept_req (r : CRequest) (pdata : String) (t : Nat) : CRequest :=
  if pyFalsy r.dres_at then
    let r1 := {r with dres_at := some t, state := some DRES, result := some pdata}
    let f := fun (a : Attempt) => {a with dres_at := some t, state := some DRES}
    {r1 with attempts := aupd r1.attempts r1.attempt_no f}
  else r

/-- The acceptance step inside the DREQ loop (lines 600-616), consuming one
clock tick for `time()`; the DACK that follows carries no state. -/
def acceptDres (c : ConsSt) (pdata : String) : ConsSt :=
  ⟨consumer_accept_req c.req pdata c.clock, c.clock + 1⟩

/-- Lines 629-635: after the outer loop, fail the request if no result was
accepted, and return the result exactly when `dres_at` is set. -/
def sendFinish (c : ConsSt) (env : List (Option RPkt)) :
    ConsSt × List (Option RPkt) × Option String :=
  if pyFalsy c.req.dres_at then
    (⟨{c.req with state := some FAIL}, c.clock⟩, env, none)
  else (c, env, c.req.result)

mutual

/-- The outer HREQ loop (lines 483-510 and 619-635): create an attempt,
broadcast HREQ, wait for the first HRES; on an HRES reset the budget and
enter the RREQ phase, otherwise retry until the budget runs out. -/
def hreq_loop (pr : Nat) (rt : Nat) (env : List (Option RPkt)) (c : ConsSt) :
    ConsSt × List (Option RPkt) × Option String :=
  if rt = 0 ∨ ¬pyFalsy c.req.dres_at then sendFinish c env
  else
    let t := c.clock
    let no := c.req.attempt_no + 1
    let att : Attempt :=
      ⟨c.req.id, no, none, some HREQ, some t, none, none, none⟩
    let r1 := {c.req with
      host := none
      state := some HREQ
      attempt_no := no
      attempts := aset c.req.attempts no att}
    let r1 := if pyFalsy r1.hreq_at then {r1 with hreq_at := some t} else r1
    let c1 : ConsSt := ⟨r1, c.clock + 1⟩
    match env with
    | [] => hreq_loop pr (rt - 1) [] c1
    | slot :: env1 =>
      match recvAnswer [HRES] slot with
      | none => hreq_loop pr (rt - 1) env1 c1
      | some q =>
        if ¬pyFalsy c1.req.dres_at then sendFinish c1 env1
        else
          -- lines 500-510: record the responder and reset the budgets
          let t2 := c1.clock
          let r2 := {c1.req with state := some RREQ, host := some q.src}
          let f := fun (a : Attempt) =>
            {a with hres_at := some t2, state := some RREQ, host := some q.src}
          let r2 := {r2 with attempts := aupd r2.attempts no f}
          rreq_loop pr q.src pr env1 ⟨r2, c1.clock + 1⟩
termination_by (env.length, rt)

/-- The RREQ loop (lines 512-547 and 623-625): unicast RREQ and wait; a
reply from a foreign host makes the loop sniff for the current host's
RRES/RCAN; an RCAN sends the attempt back to discovery. -/
def rreq_loop (pr : Nat) (host : String) (rt : Nat)
    (env : List (Option RPkt)) (c : ConsSt) :
    ConsSt × List (Option RPkt) × Option String :=
  if rt = 0 ∨ ¬pyFalsy c.req.dres_at then hreq_loop pr pr env c
  else
    let rt1 := rt - 1
    match env with
    | [] => rreq_loop pr host rt1 [] c
    | slot :: env1 =>
      match recvAnswer [RRES, RCAN] slot with
      | none => rreq_loop pr host rt1 env1 c
      | some q0 =>
        if ¬pyFalsy c.req.dres_at then hreq_loop pr pr env1 c
        else if q0.src ≠ host then
          match env1 with
          | [] => rreq_loop pr host rt1 [] c
          | slot2 :: env2 =>
            match sniffFrom host [RRES, RCAN] slot2 with
            | none => rreq_loop pr host rt1 env2 c
            | some q => rreq_step pr host rt1 env2 c q
        else rreq_step pr host rt1 env1 c q0
termination_by (env.length, rt + pr + 1)

/-- Lines 541-553: handle the RRES or RCAN that reached the RREQ loop. -/
def rreq_step (pr : Nat) (host : String) (rt : Nat)
    (env : List (Option RPkt)) (c : ConsSt) (q : RPkt) :
    ConsSt × List (Option RPkt) × Option String :=
  if q.st = RCAN then
    -- lines 541-547: attempt.state = RCAN; re-send hreq
    hreq_loop pr pr env (updAtt c (fun a => {a with state := some RCAN}))
  else
    let t := c.clock
    let c1 := updAtt ⟨c.req, c.clock + 1⟩
      (fun a => {a with rres_at := some t, state := some DREQ})
    let c1 : ConsSt := ⟨{c1.req with state := some DREQ}, c1.clock⟩
    dreq_loop pr host pr env c1
termination_by (env.length, rt + 2 * pr + 2)

/-- The DREQ loop (lines 554-622): unicast DREQ and wait; DWAIT from the
current host resets the budget and sniffs for the final DRES; a foreign
reply costs no budget; a DRES from the current host is accepted once and
its data returned; DCAN or an exhausted budget go back to discovery, the
latter marking the request late. -/
def dreq_loop (pr : Nat) (host : String) (rt : Nat)
    (env : List (Option RPkt)) (c : ConsSt) :
    ConsSt × List (Option RPkt) × Option String :=
  if rt = 0 ∨ ¬pyFalsy c.req.dres_at then
    hreq_loop pr pr env (if rt = 0 then markLate c else c)
  else
    let rt1 := rt - 1
    match env with
    | [] => dreq_loop pr host rt1 [] c
    | slot :: env1 =>
      match recvAnswer [DRES, DWAIT, DCAN] slot with
      | none => dreq_loop pr host rt1 env1 c
      | some q =>
        if ¬pyFalsy c.req.dres_at then
          hreq_loop pr pr env1 (if rt1 = 0 then markLate c else c)
        else
          let dwaitSame : Bool := q.src = host ∧ q.st = DWAIT
          let rt2 := if dwaitSame then pr else rt1
          let rt3 := if q.src ≠ host then rt2 + 1 else rt2
          if q.src ≠ host ∨ dwaitSame then
            match env1 with
            | [] => dreq_loop pr host rt3 [] c
            | slot2 :: env2 =>
              match sniffFrom host [DRES] slot2 with
              | none => dreq_loop pr host rt3 env2 c
              | some q2 =>
                let c1 := acceptDres c q2.data
                (c1, env2, c1.req.result)
          else
            if q.st = DCAN then
              let c1 := updAtt c (fun a => {a with state := some DCAN})
              hreq_loop pr pr env1 (if rt3 = 0 then markLate c1 else c1)
            else
              let c1 := acceptDres c q.data
              (c1, env1, c1.req.result)
termination_by (env.length, rt + pr + 1)

end

/-- protocol.send_request (lines 468-635): create the Request, register it,
and run the outer loop with the full budget. -/
def send_request (pr : Nat) (env : List (Option RPkt)) (cos : CoS)
    (data : String) (req_id : String) :
    ConsSt × List (Option RPkt) × Option String :=
  let req : CRequest :=
    ⟨req_id, cos, data, none, none, none, none, none, [], 0, false⟩
  hreq_loop pr pr env ⟨req, 1⟩

/-! ## Shared concrete fixtures (the spec's scenario 1 numbers) -/

/-- Node B in simulation mode: CPU=4, RAM=4096, DISK=40. -/
def simEnvB : SimEnv := ⟨4, 4096, 40, true, 0, 0⟩

/-- CoS 1, best-effort: all three minimums are zero. -/
def cosBE : CoS := ⟨1, "best-effort", 0, 0, 0⟩

/-- A CoS that needs one core, 1 MB, 1 GB. -/
def cosSmall : CoS := ⟨2, "small", 1, 1, 1⟩

/-- A CoS node B cannot satisfy. -/
def cosBig : CoS := ⟨3, "big", 8, 8192, 80⟩

def emptyG : GState := ⟨[], [], [], Reserved.zero⟩

/-! ## C1 — reserve_resources versus check_resources -/

/-- C1: the claim says `reserve_resources` returns True and adds the minima
to the counters exactly when `check_resources` is true, and returns False
leaving them unchanged otherwise.  In the code `reserve_resources` raises
ValueError on every call — line 208 unpacks the 3-tuple returned by
`get_resources` into five targets — so it never returns either boolean:
shown here together with a state where the check succeeds, so the failure
is not vacuous. -/
theorem C1_reserve_resources_always_raises :
    (∀ (e : SimEnv) (m : CoS) (st : Reserved),
      reserve_resources e m st = Except.error PyErr.valueError) ∧
    check_resources simEnvB cosSmall Reserved.zero = true := by
  constructor
  · intro e m st
    rfl
  · simp [check_resources, get_resources, simEnvB, cosSmall, Reserved.zero]

/-! ## C8 — counter clamping and matched reserve/free pairs -/

/-- C8: the claim describes sequences of reserve/free calls: counters never
negative, `free_resources` clamps at zero, and a free matching an
immediately preceding successful reserve restores the counters.  The code
clamps as claimed, but no reserve ever succeeds: at the failing input below
the check passes and `reserve_resources` still raises ValueError, leaving
no reserve/free pair to restore anything. -/
theorem C8_no_successful_reserve_exists :
    check_resources simEnvB cosSmall ⟨1, 2, 3⟩ = true ∧
    reserve_resources simEnvB cosSmall ⟨1, 2, 3⟩ = Except.error PyErr.valueError ∧
    (free_resources cosBig ⟨1, 2, 3⟩).2 = ⟨0, 0, 0⟩ ∧
    (free_resources cosSmall ⟨1, 2, 3⟩).2 = ⟨0, 1, 2⟩ := by
  refine ⟨?_, rfl, ?_, ?_⟩
  · simp [check_resources, get_resources, simEnvB, cosSmall]
    norm_num
  · simp [free_resources, cosBig]
    norm_num
  · simp [free_resources, cosSmall]
    norm_num

/-! ## C2 — the provider's HREQ branch -/

/-- The HREQ packet of the failing input: a new request from 10.0.0.2 for
CoS 1. -/
def hreqPktB : Pkt := ⟨HREQ, "abcdefghij", 1, 1, "", 0, 0, 0⟩

/-- C2: the claim says a new HREQ entry gets an HRES reply carrying the
available cpu/ram/disk exactly when the ledger check succeeds.  In the code
the branch raises TypeError at `check, cpu, ram, disk = check_resources(...)`
(check_resources returns one bool), so no HREQ is ever answered — here even
though the check would succeed — while the entry is still created in HREQ
with its CoS bound; an entry already in DRES is ignored as claimed. -/
theorem C2_hreq_branch_raises :
    check_resources simEnvB cosBE Reserved.zero = true ∧
    (make_reply simEnvB [(1, cosBE)] emptyG 5 "10.0.0.2" hreqPktB).err
      = some PyErr.typeError ∧
    (make_reply simEnvB [(1, cosBE)] emptyG 5 "10.0.0.2" hreqPktB).reply = none ∧
    alookup (make_reply simEnvB [(1, cosBE)] emptyG 5 "10.0.0.2" hreqPktB).g.preqs
      ("10.0.0.2", "abcdefghij")
      = some { id := "abcdefghij"
               cos := some cosBE
               result := none
               state := some HREQ
               thread := false
               freed := true } ∧
    (make_reply simEnvB [(1, cosBE)]
      ⟨[], [(("10.0.0.2", "abcdefghij"),
        { id := "abcdefghij"
          cos := some cosBE
          result := none
          state := some DRES
          thread := false
          freed := true })], [], Reserved.zero⟩ 5 "10.0.0.2" hreqPktB)
      = amNoop ⟨[], [(("10.0.0.2", "abcdefghij"),
        { id := "abcdefghij"
          cos := some cosBE
          result := none
          state := some DRES
          thread := false
          freed := true })], [], Reserved.zero⟩ := by
  refine ⟨?_, rfl, rfl, rfl, rfl⟩
  simp [check_resources, get_resources, simEnvB, cosBE, Reserved.zero]

/-! ## C6 — RREQ for an entry in HRES when resources are insufficient -/

/-- A provider entry sitting in HRES for the demanding CoS. -/
def preqHresBig : PReq :=
  { id := "abcdefghij"
    cos := some cosBig
    result := none
    state := some HRES
    thread := false
    freed := true }

def gHresBig : GState :=
  ⟨[], [(("10.0.0.2", "abcdefghij"), preqHresBig)], [], Reserved.zero⟩

def rreqPktB : Pkt := ⟨RREQ, "abcdefghij", 1, 0, "", 0, 0, 0⟩

/-- C6: the claim says a failed reservation is answered with RCAN and the
entry reverts to HREQ with the counters unchanged.  In the code
`reserve_resources` raises ValueError on every call (the arity slip at
simulator.py line 208), so at this failing input — resources insufficient,
the check is false — the provider raises instead: no RCAN is sent and the
entry stays in HRES (the counters are indeed unchanged, the exception
aborts before any write). -/
theorem C6_rreq_reservation_failure_raises :
    check_resources simEnvB cosBig Reserved.zero = false ∧
    (make_reply simEnvB [(1, cosBE)] gHresBig 5 "10.0.0.2" rreqPktB).err
      = some PyErr.valueError ∧
    (make_reply simEnvB [(1, cosBE)] gHresBig 5 "10.0.0.2" rreqPktB).reply = none ∧
    (make_reply simEnvB [(1, cosBE)] gHresBig 5 "10.0.0.2" rreqPktB).g = gHresBig := by
  refine ⟨?_, rfl, rfl, rfl⟩
  simp [check_resources, get_resources, simEnvB, cosBig, Reserved.zero]

/-! ## C10 — HRES handling appends to the observation log only -/

/-- C10: an admitted HRES never produces a reply or a background task, never
touches the provider registry, the ledger or the consumer registry, and
appends one Response record exactly when its req_id is a live consumer
request whose state is neither DRES nor FAIL (a missing id, a placeholder
entry — where the source raises before reaching the log — or a completed or
failed request leaves the log unchanged). -/
theorem C10_hres_appends_observation_iff_live (e : SimEnv)
    (cd : List (Nat × CoS)) (g : GState) (now : Nat) (src : String) (p : Pkt)
    (h : p.state = HRES) :
    (make_reply e cd g now src p).reply = none ∧
    (make_reply e cd g now src p).spawn = none ∧
    (make_reply e cd g now src p).g.requests = g.requests ∧
    (make_reply e cd g now src p).g.preqs = g.preqs ∧
    (make_reply e cd g now src p).g.reserved = g.reserved ∧
    (make_reply e cd g now src p).g.responses
      = (match alookup g.requests p.req_id with
        | some (some r) =>
          if r.state ≠ some DRES ∧ r.state ≠ some FAIL then
            append_response g.responses p.req_id
              (mkResponse p.req_id p.attempt_no src p.cpu_offer p.ram_offer
                p.disk_offer now)
          else g.responses
        | _ => g.responses) := by
  rcases hl : alookup g.requests p.req_id with - | (- | r)
  · simp [make_reply, h, hl, HREQ, HRES, amNoop]
  · simp [make_reply, h, hl, HREQ, HRES, amNoop, amErr]
  · simp only [make_reply, h, hl]
    norm_num [HREQ, HRES, amNoop]
    split_ifs <;> simp [amNoop]

/-- A live consumer request still in discovery. -/
def reqLiveB : CRequest :=
  ⟨"abcdefghij", cosBE, "data + program", none, none, some HREQ, some 2, none,
    [], 0, false⟩

def gLiveB : GState := ⟨[("abcdefghij", some reqLiveB)], [], [], Reserved.zero⟩

def hresPktB : Pkt := ⟨HRES, "abcdefghij", 1, 0, "", 4, 4096, 40⟩

/-- Witness for C10 at a live request in HREQ: the HRES is logged and
nothing else changes. -/
theorem C10_hres_appends_observation_iff_live_witness :
    (make_reply simEnvB [] gLiveB 7 "10.0.0.3" hresPktB).reply = none ∧
    (make_reply simEnvB [] gLiveB 7 "10.0.0.3" hresPktB).spawn = none ∧
    (make_reply simEnvB [] gLiveB 7 "10.0.0.3" hresPktB).g.requests = gLiveB.requests ∧
    (make_reply simEnvB [] gLiveB 7 "10.0.0.3" hresPktB).g.preqs = gLiveB.preqs ∧
    (make_reply simEnvB [] gLiveB 7 "10.0.0.3" hresPktB).g.reserved = gLiveB.reserved ∧
    (make_reply simEnvB [] gLiveB 7 "10.0.0.3" hresPktB).g.responses
      = (match alookup gLiveB.requests hresPktB.req_id with
        | some (some r) =>
          if r.state ≠ some DRES ∧ r.state ≠ some FAIL then
            append_response gLiveB.responses hresPktB.req_id
              (mkResponse hresPktB.req_id hresPktB.attempt_no "10.0.0.3"
                hresPktB.cpu_offer hresPktB.ram_offer hresPktB.disk_offer 7)
          else gLiveB.responses
        | _ => gLiveB.responses) :=
  C10_hres_appends_observation_iff_live simEnvB [] gLiveB 7 "10.0.0.3" hresPktB rfl

/-! ## Association-list lemmas -/

theorem alookup_aset {α β : Type} [DecidableEq α] (l : List (α × β)) (k : α)
    (v : β) (id : α) :
    alookup (aset l k v) id = if k = id then some v else alookup l id := by
  induction l with
  | nil => simp [aset, alookup]
  | cons hd tl ih =>
    obtain ⟨a, b⟩ := hd
    by_cases hak : a = k
    · subst hak
      simp only [aset, if_pos rfl, alookup]
      by_cases hai : a = id <;> simp [hai]
    · simp only [aset, if_neg hak, alookup]
      by_cases hai : a = id
      · subst hai
        have : ¬(k = a) := fun hh => hak hh.symm
        simp [this]
      · simp [hai, ih]

theorem alookup_aupd {α β : Type} [DecidableEq α] (l : List (α × β)) (k : α)
    (f : β → β) (id : α) :
    alookup (aupd l k f) id
      = if k = id then Option.map f (alookup l id) else alookup l id := by
  induction l with
  | nil => simp [aupd, alookup]
  | cons hd tl ih =>
    obtain ⟨a, b⟩ := hd
    by_cases hak : a = k
    · subst hak
      simp only [aupd, if_pos rfl, alookup]
      by_cases hai : a = id <;> simp [hai]
    · simp only [aupd, if_neg hak, alookup]
      by_cases hai : a = id
      · subst hai
        have : ¬(k = a) := fun hh => hak hh.symm
        simp [this]
      · simp [hai, ih]

/-! ## C3 — the consumer's DRES branch -/

/-- C3: for a DRES on a live registered request: while `dres_at` is unset it
is accepted exactly when the source differs from the current host and the
request is marked late, setting `host`, `result`, `dres_at` and the named
attempt's state and replying DACK; once `dres_at` is set the reply is DCAN
for a foreign source and DACK for the current host, with no state change. -/
theorem C3_consumer_dres_branch (e : SimEnv) (cd : List (Nat × CoS))
    (g : GState) (now : Nat) (src : String) (p : Pkt) (r : CRequest)
    (hp : p.state = DRES)
    (hr : alookup g.requests p.req_id = some (some r)) :
    (r.dres_at = none → r.host ≠ some src → r.late = true →
      ∀ a, alookup r.attempts p.attempt_no = some a →
      (make_reply e cd g now src p).reply = some {p with state := DACK} ∧
      (make_reply e cd g now src p).err = none ∧
      ∃ r', alookup (make_reply e cd g now src p).g.requests p.req_id
          = some (some r') ∧
        r'.dres_at = some now ∧ r'.state = some DRES ∧ r'.host = some src ∧
        r'.result = some p.data ∧
        alookup r'.attempts p.attempt_no
          = some {a with state := some DRES, dres_at := some now}) ∧
    (r.dres_at = none → ¬(r.host ≠ some src ∧ r.late = true) →
      make_reply e cd g now src p = amNoop g) ∧
    (∀ t, r.dres_at = some t → t ≠ 0 →
      (make_reply e cd g now src p).g = g ∧
      (make_reply e cd g now src p).err = none ∧
      (make_reply e cd g now src p).reply
        = some {p with state := if r.host ≠ some src then DCAN else DACK}) := by
  have hst : ∀ n : Nat, (DRES = n) = (7 = n) := fun n => by rw [DRES]
  refine ⟨?_, ?_, ?_⟩
  · intro h1 h2 h3 a ha
    simp only [make_reply, hp, hr, hst, HREQ, HRES, RREQ, RRES, RCAN, DREQ,
      DRES, DACK, DCAN, DWAIT]
    norm_num [pyFalsy, h1, h2, h3, ha, amReply]
    refine ⟨{r with
      result := some p.data
      host := some src
      state := some DRES
      dres_at := some now
      late := true
      attempts := aupd r.attempts p.attempt_no
        (fun a => {a with state := some DRES, dres_at := some now})},
      ?_, by simp [DRES], by simp [DRES], by simp, by simp, ?_⟩
    · rw [alookup_aset]
      simp [DRES]
    · simp [alookup_aupd, ha, DRES]
  · intro h1 h2
    simp only [make_reply, hp, hr, hst, HREQ, HRES, RREQ, RRES, RCAN, DREQ,
      DRES, DACK, DCAN, DWAIT]
    norm_num [pyFalsy, h1]
    intro hh hl
    exact absurd ⟨hh, hl⟩ h2
  · intro t h1 h2
    simp only [make_reply, hp, hr, hst, HREQ, HRES, RREQ, RRES, RCAN, DREQ,
      DRES, DACK, DCAN, DWAIT]
    have : pyFalsy r.dres_at = false := by simp [pyFalsy, h1, h2]
    norm_num [this, amReply]
    by_cases hh : r.host = some src <;> simp [hh]

/-- The current (second-attempt era) attempt of a request that went late. -/
def attLate : Attempt :=
  ⟨"abcdefghij", 1, some "10.0.0.9", some DREQ, some 2, some 3, some 4, none⟩

/-- A live request marked late, currently bound to host 10.0.0.9. -/
def reqLate : CRequest :=
  ⟨"abcdefghij", cosBE, "data", none, some "10.0.0.9", some DREQ, some 2, none,
    [(1, attLate)], 1, true⟩

def gLate : GState := ⟨[("abcdefghij", some reqLate)], [], [], Reserved.zero⟩

def dresPktB : Pkt := ⟨DRES, "abcdefghij", 1, 0, "result", 0, 0, 0⟩

/-- Witness for C3: a foreign DRES to the late request is accepted and
acknowledged. -/
theorem C3_consumer_dres_branch_witness :
    (make_reply simEnvB [] gLate 9 "10.0.0.3" dresPktB).reply
      = some {dresPktB with state := DACK} ∧
    (make_reply simEnvB [] gLate 9 "10.0.0.3" dresPktB).err = none ∧
    (∃ r', alookup (make_reply simEnvB [] gLate 9 "10.0.0.3" dresPktB).g.requests
        dresPktB.req_id = some (some r') ∧
      r'.dres_at = some 9 ∧ r'.state = some DRES ∧ r'.host = some "10.0.0.3" ∧
      r'.result = some dresPktB.data ∧
      alookup r'.attempts dresPktB.attempt_no
        = some {attLate with state := some DRES, dres_at := some 9}) :=
  (C3_consumer_dres_branch simEnvB [] gLate 9 "10.0.0.3" dresPktB reqLate rfl
    rfl).1 rfl (by decide) rfl attLate rfl

/-! ## C5 — release discipline of a provider-side reservation -/

/-- An entry holding an active reservation (counters incremented,
freed=false) for `cosSmall`, in RRES with its responder running. -/
def preqActive : PReq := ⟨"abcdefghij", some cosSmall, none, some RRES, false, false⟩

/-- Counterexample to C5 as stated: the reservation-responder's cancellation
path (an RCAN during the RRES retries) frees the ledger counters and
reverts the entry to HREQ, but leaves `freed = false` — the entry is in
neither the claimed "active" nor the claimed "released" configuration. -/
theorem C5_rcan_path_leaves_freed_false :
    (respond_resources 3 [some ⟨"10.0.0.1", RCAN, ""⟩] preqActive ⟨1, 1, 1⟩).reserved
      = ⟨0, 0, 0⟩ ∧
    (respond_resources 3 [some ⟨"10.0.0.1", RCAN, ""⟩] preqActive ⟨1, 1, 1⟩).exit
      = RRExit.viaRcan ∧
    (respond_resources 3 [some ⟨"10.0.0.1", RCAN, ""⟩] preqActive ⟨1, 1, 1⟩).r.state
      = some HREQ ∧
    (respond_resources 3 [some ⟨"10.0.0.1", RCAN, ""⟩] preqActive ⟨1, 1, 1⟩).r.freed
      = false := by
  have h : respond_resources 3 [some ⟨"10.0.0.1", RCAN, ""⟩] preqActive ⟨1, 1, 1⟩
      = ⟨{preqActive with state := some HREQ},
          (free_resources cosSmall ⟨1, 1, 1⟩).2, [], false, .viaRcan, none⟩ := by
    simp [respond_resources, preqActive, recvAnswer, RRES, RCAN, DREQ]
  rw [h]
  refine ⟨?_, rfl, rfl, rfl⟩
  simp [free_resources, cosSmall]

/-- Exit-classified release property of the execution-responder's loop: on
its DCAN and retry-exhaustion exits the entry ends with `freed = true`, and
the ledger counters are freed exactly when the entry was still reserved
(left untouched when it had already been freed). -/
theorem respond_data_loop_released (retries : Nat) (env : List (Option RPkt))
    (r : PReq) (res : Reserved) (m : CoS) :
    r.cos = some m →
    ((respond_data_loop retries env r res).exit = RDExit.viaDcan ∨
     (respond_data_loop retries env r res).exit = RDExit.viaTimeout) →
    (respond_data_loop retries env r res).r.freed = true ∧
    (respond_data_loop retries env r res).reserved
      = (if r.freed = true then res else (free_resources m res).2) := by
  induction retries, env, r, res using respond_data_loop.induct <;>
    intro hm hex <;>
    simp_all [respond_data_loop, recvAnswer]

/-- Exit-classified behaviour of the reservation-responder's freeing paths:
counters freed, entry back in HREQ, `freed` flag untouched. -/
theorem respond_resources_paths (retries : Nat) (env : List (Option RPkt))
    (r : PReq) (res : Reserved) (m : CoS) :
    r.cos = some m →
    ((respond_resources retries env r res).exit = RRExit.viaRcan ∨
     (respond_resources retries env r res).exit = RRExit.viaTimeout) →
    (respond_resources retries env r res).reserved = (free_resources m res).2 ∧
    (respond_resources retries env r res).r.state = some HREQ ∧
    (respond_resources retries env r res).r.freed = r.freed := by
  induction retries, env, r, res using respond_resources.induct <;>
    intro hm hex <;>
    simp_all [respond_resources, respond_resources_after, recvAnswer] <;>
    split_ifs at hex ⊢ <;> simp_all

/-- C5 (amended): on DACK for an entry in DRES with an active (unfreed)
reservation the provider frees the counters and sets `freed := true`, and a
DACK for an entry not in DRES changes nothing; the execution-responder's
cancellation and retry-exhaustion paths leave the entry with `freed = true`,
freeing the counters exactly when the entry was still reserved; but the
reservation-responder's cancellation and timeout paths free the counters
and revert the entry to HREQ while leaving the `freed` flag unchanged — the
entry is then in neither the "active" nor the "released" configuration of
the claim. -/
theorem C5_release_discipline :
    (∀ (e : SimEnv) (cd : List (Nat × CoS)) (g : GState) (now : Nat)
      (src : String) (p : Pkt) (r : PReq) (m : CoS), p.state = DACK →
      alookup g.preqs (src, p.req_id) = some r → r.state = some DRES →
      r.freed = false → r.cos = some m →
      (make_reply e cd g now src p).g.reserved
          = (free_resources m g.reserved).2 ∧
      alookup (make_reply e cd g now src p).g.preqs (src, p.req_id)
          = some {r with freed := true} ∧
      (make_reply e cd g now src p).reply = none ∧
      (make_reply e cd g now src p).err = none) ∧
    (∀ (e : SimEnv) (cd : List (Nat × CoS)) (g : GState) (now : Nat)
      (src : String) (p : Pkt) (r : PReq), p.state = DACK →
      alookup g.preqs (src, p.req_id) = some r → r.state ≠ some DRES →
      make_reply e cd g now src p = amNoop g) ∧
    (∀ (retries : Nat) (env : List (Option RPkt)) (r : PReq)
      (res : Reserved) (m : CoS), r.cos = some m →
      ((respond_data retries env r res).exit = RDExit.viaDcan ∨
       (respond_data retries env r res).exit = RDExit.viaTimeout) →
      (respond_data retries env r res).r.freed = true ∧
      (respond_data retries env r res).reserved
        = (if r.freed = true then res else (free_resources m res).2)) ∧
    (∀ (retries : Nat) (env : List (Option RPkt)) (r : PReq)
      (res : Reserved) (m : CoS), r.cos = some m →
      ((respond_resources retries env r res).exit = RRExit.viaRcan ∨
       (respond_resources retries env r res).exit = RRExit.viaTimeout) →
      (respond_resources retries env r res).reserved
          = (free_resources m res).2 ∧
      (respond_resources retries env r res).r.state = some HREQ ∧
      (respond_resources retries env r res).r.freed = r.freed) := by
  have hne : ∀ n : Nat, n ≠ 8 → ¬((DACK : Nat) = n) := by
    intro n h hh
    rw [DACK] at hh
    exact h hh.symm
  refine ⟨?_, ?_, ?_, ?_⟩
  · intro e cd g now src p r m hp hr hst hf hm
    simp only [make_reply, hp, DACK, HREQ, HRES, RREQ, RRES, RCAN, DREQ, DRES,
      DCAN, DWAIT]
    norm_num [hr, hst, DRES, hf, hm]
    rw [alookup_aupd]
    simp [hr, hm, hst, DRES]
  · intro e cd g now src p r hp hr hst
    simp only [make_reply, hp, DACK, HREQ, HRES, RREQ, RRES, RCAN, DREQ, DRES,
      DCAN, DWAIT]
    norm_num [hr]
    intro hh
    rw [DRES] at hst
    exact absurd (by rw [hh]) hst
  · intro retries env r res m hm hex
    exact respond_data_loop_released retries env
      {r with result := some "result", state := some DRES} res m hm hex
  · intro retries env r res m hm hex
    exact respond_resources_paths retries env r res m hm hex

/-! ## C4 — dres_at is written at most once -/

/-- The two writers of a consumer request's `dres_at`: an answering-machine
dispatch (protocol.py lines 352-364) and the consumer loop's guarded
acceptance (lines 600-605), acting on the shared registry entry. -/
inductive WriterOp
  | am (e : SimEnv) (cd : List (Nat × CoS)) (now : Nat) (src : String) (p : Pkt)
  | consAccept (id : String) (pdata : String) (now : Nat)

def applyWriter (g : GState) : WriterOp → GState
  | .am e cd now src p => (make_reply e cd g now src p).g
  | .consAccept id pdata now =>
      let f := Option.map (fun r => consumer_accept_req r pdata now)
      {g with requests := aupd g.requests id f}

/-- Outside its DRES branch, `make_reply` never touches the consumer
registry. -/
theorem make_reply_requests_eq_of_ne_dres (e : SimEnv) (cd : List (Nat × CoS))
    (g : GState) (now : Nat) (src : String) (p : Pkt) (h : ¬p.state = DRES) :
    (make_reply e cd g now src p).g.requests = g.requests := by
  by_cases h1 : p.state = HREQ
  · simp only [make_reply, if_pos h1]
    repeat' split
    all_goals simp [amNoop, amErr, amReply, unpack_bool4]
  by_cases h2 : p.state = HRES
  · simp only [make_reply, if_neg h1, if_pos h2]
    repeat' split
    all_goals simp [amNoop, amErr, amReply]
  by_cases h3 : p.state = RREQ
  · simp only [make_reply, if_neg h1, if_neg h2, if_pos h3]
    repeat' split
    all_goals simp [amNoop, amErr, amReply, afterRREQ, reserve_resources,
      get_resources_seq, unpack5]
    all_goals repeat' split
    all_goals simp [amNoop]
  by_cases h4 : p.state = RRES
  · simp only [make_reply, if_neg h1, if_neg h2, if_neg h3, if_pos h4]
    repeat' split
    all_goals simp [amNoop, amErr, amReply]
  by_cases h5 : p.state = DREQ
  · simp only [make_reply, if_neg h1, if_neg h2, if_neg h3, if_neg h4,
      if_pos h5]
    repeat' split
    all_goals simp [amNoop, amErr, amReply, afterDREQ, subscript_bool]
    all_goals repeat' split
    all_goals simp [amNoop]
  by_cases h6 : p.state = DACK
  · simp only [make_reply, if_neg h1, if_neg h2, if_neg h3, if_neg h4,
      if_neg h5, if_neg h, if_pos h6]
    repeat' split
    all_goals simp [amNoop, amErr, amReply]
  · simp only [make_reply, if_neg h1, if_neg h2, if_neg h3, if_neg h4,
      if_neg h5, if_neg h, if_neg h6]
    simp [amNoop]

/-- One answering-machine dispatch cannot overwrite a set `dres_at`: the
only writer (the DRES branch) observes `dres_at` first and leaves truthy
values alone. -/
theorem make_reply_keeps_dres_at (e : SimEnv) (cd : List (Nat × CoS))
    (g : GState) (now : Nat) (src : String) (p : Pkt) (id : String)
    (r : CRequest) (t : Nat) (ht : t ≠ 0)
    (hr : alookup g.requests id = some (some r)) (hd : r.dres_at = some t) :
    ∃ r', alookup (make_reply e cd g now src p).g.requests id = some (some r')
      ∧ r'.dres_at = some t := by
  by_cases h7 : p.state = DRES
  · simp only [make_reply, h7, DRES, HREQ, HRES, RREQ, RRES, RCAN, DREQ, DACK,
      DCAN, DWAIT]
    norm_num
    rcases hl : alookup g.requests p.req_id with - | (- | rr)
    · exact ⟨r, hr, hd⟩
    · simp [amErr]
      exact ⟨r, hr, hd⟩
    · by_cases hid : p.req_id = id
      · subst hid
        rw [hr] at hl
        obtain rfl : r = rr := by simpa using hl
        have : pyFalsy r.dres_at = false := by simp [pyFalsy, hd, ht]
        simp only [this, Bool.false_eq_true, if_false, amReply]
        split <;> exact ⟨r, hr, hd⟩
      · have hne : ¬(p.req_id = id) := hid
        refine ⟨r, ?_, hd⟩
        by_cases hp1 : pyFalsy rr.dres_at = true
        · by_cases hp2 : ¬rr.host = some src ∧ rr.late = true
          · rcases ha : alookup rr.attempts p.attempt_no with - | a <;>
              simp [hp1, hp2, ha, amErr, amReply, alookup_aset, hne, hr]
          · simp [hp1, hp2, amNoop, hr]
        · simp [hp1, amReply, hr]
          split <;> simp [hr]
  · rw [make_reply_requests_eq_of_ne_dres e cd g now src p h7]
    exact ⟨r, hr, hd⟩

/-- C4: over any interleaving of the two writers — answering-machine
dispatches and the consumer loop's guarded acceptance — a `dres_at` that has
been set (to a real, nonzero timestamp) is never overwritten: both writers
read it and write only when it was unset, so it is assigned at most once
over the whole run. -/
theorem C4_dres_at_written_at_most_once (ops : List WriterOp) (g : GState)
    (id : String) (r : CRequest) (t : Nat) (ht : t ≠ 0)
    (hr : alookup g.requests id = some (some r)) (hd : r.dres_at = some t) :
    ∃ r', alookup (ops.foldl applyWriter g).requests id = some (some r')
      ∧ r'.dres_at = some t := by
  induction ops generalizing g r with
  | nil => exact ⟨r, hr, hd⟩
  | cons op rest ih =>
    rw [List.foldl_cons]
    cases op with
    | am e cd now src p =>
      obtain ⟨r1, hr1, hd1⟩ :=
        make_reply_keeps_dres_at e cd g now src p id r t ht hr hd
      exact ih _ _ hr1 hd1
    | consAccept id2 pdata now =>
      by_cases hid : id2 = id
      · subst hid
        refine ih _ (consumer_accept_req r pdata now) ?_ ?_
        · simp [applyWriter, alookup_aupd, hr]
        · simp [consumer_accept_req, pyFalsy, hd, ht]
      · refine ih _ r ?_ hd
        simp [applyWriter, alookup_aupd, hid, hr]

/-- Witness for C4: a run of one foreign DRES dispatch and one consumer
acceptance over a request whose `dres_at` is already 5 leaves it 5. -/
theorem C4_dres_at_written_at_most_once_witness :
    ∃ r', alookup (List.foldl applyWriter
        ⟨[("abcdefghij", some {reqLate with dres_at := some 5})], [], [],
          Reserved.zero⟩
        [.am simEnvB [] 9 "10.0.0.3" dresPktB,
         .consAccept "abcdefghij" "other" 11]).requests "abcdefghij"
      = some (some r') ∧ r'.dres_at = some 5 :=
  C4_dres_at_written_at_most_once
    [.am simEnvB [] 9 "10.0.0.3" dresPktB,
     .consAccept "abcdefghij" "other" 11]
    ⟨[("abcdefghij", some {reqLate with dres_at := some 5})], [], [],
      Reserved.zero⟩
    "abcdefghij" {reqLate with dres_at := some 5} 5 (by decide) rfl rfl

/-! ## C7 — number of outer attempts -/

/-- When every wait in the environment yields no HRES, the outer loop makes
exactly one attempt per budget unit: the final attempt counter grows by the
full budget, the request fails, and nothing is returned. -/
theorem hreq_loop_no_hres (pr rt : Nat) (env : List (Option RPkt)) (c : ConsSt)
    (henv : ∀ q : RPkt, some q ∈ env → ¬q.st = HRES)
    (hp : pyFalsy c.req.dres_at = true) :
    (hreq_loop pr rt env c).1.req.attempt_no = c.req.attempt_no + rt ∧
    (hreq_loop pr rt env c).1.req.state = some FAIL ∧
    (hreq_loop pr rt env c).2.2 = none := by
  induction rt generalizing env c with
  | zero =>
    rw [hreq_loop.eq_def]
    simp [sendFinish, hp, FAIL]
  | succ n ih =>
    have step : ∀ (env1 : List (Option RPkt)) (c1 : ConsSt),
        (∀ q : RPkt, some q ∈ env1 → ¬q.st = HRES) →
        c1.req.dres_at = c.req.dres_at →
        c1.req.attempt_no = c.req.attempt_no + 1 →
        (hreq_loop pr n env1 c1).1.req.attempt_no = c.req.attempt_no + (n + 1) ∧
        (hreq_loop pr n env1 c1).1.req.state = some FAIL ∧
        (hreq_loop pr n env1 c1).2.2 = none := by
      intro env1 c1 he1 hdd haa
      have hp1 : pyFalsy c1.req.dres_at = true := by rw [hdd]; exact hp
      obtain ⟨h1, h2, h3⟩ := ih env1 c1 he1 hp1
      refine ⟨?_, h2, h3⟩
      rw [h1, haa]
      omega
    cases env with
    | nil =>
      rw [hreq_loop.eq_def]
      norm_num [hp]
      exact step [] _ (by intro q hq; simp at hq) (by split <;> rfl)
        (by split <;> rfl)
    | cons slot env1 =>
      have hnone : recvAnswer [HRES] slot = none := by
        cases slot with
        | none => rfl
        | some q =>
          have := henv q (by simp)
          simp [recvAnswer, this]
      rw [hreq_loop.eq_def]
      norm_num [hp, hnone]
      exact step env1 _ (fun q hq => henv q (by simp [hq])) (by split <;> rfl)
        (by split <;> rfl)

/-- C7 (amended): the outer budget is reset to PROTOCOL_RETRIES after every
received HRES, so the total number of attempts can exceed it (see the
counterexample); when no HRES ever arrives, exactly PROTOCOL_RETRIES
attempts are made and the request ends in state FAIL with no result
returned. -/
theorem C7_no_hres_exactly_retries_attempts (pr : Nat)
    (env : List (Option RPkt)) (cos : CoS) (data req_id : String)
    (henv : ∀ q : RPkt, some q ∈ env → ¬q.st = HRES) :
    (send_request pr env cos data req_id).1.req.attempt_no = pr ∧
    (send_request pr env cos data req_id).1.req.state = some FAIL ∧
    (send_request pr env cos data req_id).2.2 = none := by
  have h := hreq_loop_no_hres pr pr env
    ⟨⟨req_id, cos, data, none, none, none, none, none, [], 0, false⟩, 1⟩
    henv rfl
  simpa [send_request] using h

/-- Witness for C7: three timeouts, three attempts, FAIL, no result. -/
theorem C7_no_hres_exactly_retries_attempts_witness :
    (send_request 3 [none, none, none] cosBE "data + program"
      "abcdefghij").1.req.attempt_no = 3 ∧
    (send_request 3 [none, none, none] cosBE "data + program"
      "abcdefghij").1.req.state = some FAIL ∧
    (send_request 3 [none, none, none] cosBE "data + program"
      "abcdefghij").2.2 = none :=
  C7_no_hres_exactly_retries_attempts 3 [none, none, none] cosBE
    "data + program" "abcdefghij" (by intro q hq; simp at hq)

set_option maxHeartbeats 4000000 in
/-- Counterexample to C7 as stated: with PROTOCOL_RETRIES = 3, one HRES
followed by an RCAN resets the outer budget (protocol.py line 509), and the
run makes four attempts — more than PROTOCOL_RETRIES. -/
theorem C7_attempts_can_exceed_retries :
    (send_request 3 [some ⟨"10.0.0.2", HRES, ""⟩, some ⟨"10.0.0.2", RCAN, ""⟩,
      none, none, none] cosBE "data + program" "abcdefghij").1.req.attempt_no
      = 4 ∧ 3 < 4 := by
  refine ⟨?_, by norm_num⟩
  simp [send_request, hreq_loop, rreq_loop, rreq_step, dreq_loop, recvAnswer,
    sendFinish, markLate, updAtt, acceptDres, consumer_accept_req, pyFalsy,
    aupd, aset, HREQ, HRES, RREQ, RRES, RCAN, DREQ, DRES, DACK, DCAN, DWAIT,
    FAIL]
